import Mathlib

/-
Verification of the notebook output-rendering pipeline of MyST-NB
(myst_nb/docutils_.py), as a shallow embedding in Lean 4.

The embedding mirrors the dispatch logic of
DocutilsNbRenderer.render_nb_cell_code / render_nb_cell_code_outputs,
DocutilsNbRenderer.get_nb_config, and Parser.parse.  External rendering
capabilities (the NbElementRenderer entry-point plugin) are modelled as an
abstract record of functions producing lists of opaque nodes; the docutils
node tree built by the renderer is modelled as the list of items appended to
the current node, in order.
-/

namespace MystNb

/-- One captured output of a code cell, mirroring the nbformat NotebookNode
dictionary as the dispatcher reads it: the output_type string selects which
of the remaining fields are meaningful (name/text for streams, data for
display_data / execute_result).  The data mapping is an association list
from mime type to payload. -/
structure Output where
  output_type : String
  name : String := ""
  text : String := ""
  data : List (String × String) := []
  deriving DecidableEq, Repr

/-- Membership of a key in the data mapping, mirroring the Python test
membership of x in the keys of the data dict. -/
def keyMem (data : List (String × String)) (k : String) : Bool :=
  data.any (fun p => p.1 = k)

/-- Lookup of a key known to be present in the data mapping, mirroring the
Python subscript on the data dict (the default is unreachable whenever the
key was found first). -/
def dictGet (data : List (String × String)) (k : String) : String :=
  ((data.find? (fun p => p.1 = k)).map Prod.snd).getD ""

/-- Mime selection as written in render_nb_cell_code_outputs: the first
element of mime_priority whose key is present in the data mapping, none when
the generator is exhausted (the Python StopIteration branch). -/
def findMimeType (mime_priority : List String) (data : List (String × String)) :
    Option String :=
  mime_priority.find? (fun x => keyMem data x)

/-- The external element-renderer capabilities consumed by the dispatcher
(an NbElementRenderer instance loaded from an entry point).  Each capability
takes the output (or the chosen mime type and payload), the cell index and
the line, and returns zero or more opaque document nodes. -/
structure NbElementRenderer (Node : Type) where
  render_stdout : Output → Nat → Nat → List Node
  render_stderr : Output → Nat → Nat → List Node
  render_error : Output → Nat → Nat → List Node
  render_mime_type : String → String → Nat → Nat → List Node

/-- One item appended to the current docutils node while rendering a cell's
outputs: either a node produced by a rendering capability, or the container
node wrapping a chosen mime representation, or a warning (system message)
appended by create_warning. -/
inductive Emitted (Node : Type) where
  | rendered (node : Node)
  | mimeContainer (mime_type : String) (children : List Node)
  | warning (message : String) (subtype : String)
  deriving DecidableEq, Repr

/-- The body of the output loop of render_nb_cell_code_outputs for one
output: the list of items it appends to the current node.  Unknown stream
names fall through the if/elif chain to a bare pass (no warning is created
there; the source marks it with a TODO). -/
def render_output {Node : Type} (r : NbElementRenderer Node)
    (mime_priority : List String) (cell_index line : Nat) (output : Output) :
    List (Emitted Node) :=
  if output.output_type = "stream" then
    if output.name = "stdout" then
      (r.render_stdout output cell_index line).map Emitted.rendered
    else if output.name = "stderr" then
      (r.render_stderr output cell_index line).map Emitted.rendered
    else
      []
  else if output.output_type = "error" then
    (r.render_error output cell_index line).map Emitted.rendered
  else if output.output_type = "display_data" ∨ output.output_type = "execute_result" then
    match findMimeType mime_priority output.data with
    | none =>
      [Emitted.warning "No output mime type found from render_priority" "mime_type"]
    | some mime_type =>
      [Emitted.mimeContainer mime_type
        (r.render_mime_type mime_type (dictGet output.data mime_type) cell_index line)]
  else
    [Emitted.warning ("Unsupported output type: " ++ output.output_type) "output_type"]

/-- The output loop of render_nb_cell_code_outputs: each output's items are
appended (current_node.extend) in the order the outputs occur. -/
def render_outputs {Node : Type} (r : NbElementRenderer Node)
    (mime_priority : List String) (cell_index line : Nat) :
    List Output → List (Emitted Node)
  | [] => []
  | output :: rest =>
    render_output r mime_priority cell_index line output ++
      render_outputs r mime_priority cell_index line rest

/-- A configuration value stored in the nb_config dict handed to the
renderer (mdit_parser.options holds nb_config.as_dict()): the options read
by the code paths under verification are booleans and string lists. -/
inductive ConfigValue where
  | bool (b : Bool)
  | strList (l : List String)
  deriving DecidableEq, Repr

/-- Python truthiness of a configuration value, as used by the bare
not/and tests in render_nb_cell_code. -/
def ConfigValue.truthy : ConfigValue → Bool
  | .bool b => b
  | .strList l => !l.isEmpty

/-- Truthiness of an optional configuration value; the none case corresponds
to a Python KeyError, unreachable for dicts produced by as_dict. -/
def truthyOpt : Option ConfigValue → Bool
  | some v => v.truthy
  | none => false

/-- String-list reading of an optional configuration value, as the
mime_priority option is consumed. -/
def strListOpt : Option ConfigValue → List String
  | some (.strList l) => l
  | _ => []

/-- DocutilsNbRenderer.get_nb_config: returns self.config["nb_config"][key];
the cell_index parameter is accepted but not consulted (the source marks the
config/notebook/cell-level selection as a TODO).  none models KeyError. -/
def get_nb_config (nb_config : List (String × ConfigValue)) (key : String)
    (cell_index : Option Nat) : Option ConfigValue :=
  (nb_config.find? (fun p => p.1 = key)).map Prod.snd

/-- Modelled from the spec: NbParserConfig lives in myst_nb/configuration.py,
which is not among the provided source files.  Only the recognized options
consumed by the verified code paths are modelled (section 3, RenderConfig;
section 6, configuration surface); the field defaults stand for the
documented default configuration that NbParserConfig() constructs. -/
structure NbParserConfig where
  remove_code_source : Bool := false
  remove_code_outputs : Bool := false
  merge_streams : Bool := false
  number_source_lines : Bool := false
  read_as_md : Bool := false
  mime_priority : List String := []
  deriving DecidableEq, Repr

/-- The dict view of the configuration handed to the renderer via
mdit_parser.options, mirroring nb_config.as_dict(). -/
def NbParserConfig.as_dict (c : NbParserConfig) : List (String × ConfigValue) :=
  [("remove_code_source", ConfigValue.bool c.remove_code_source),
   ("remove_code_outputs", ConfigValue.bool c.remove_code_outputs),
   ("merge_streams", ConfigValue.bool c.merge_streams),
   ("number_source_lines", ConfigValue.bool c.number_source_lines),
   ("read_as_md", ConfigValue.bool c.read_as_md),
   ("mime_priority", ConfigValue.strList c.mime_priority)]

/-- One cell of the notebook stored in mdit_parser.options, as read back by
the renderer: only its outputs field is consulted. -/
structure NotebookCell where
  outputs : List Output := []
  deriving DecidableEq, Repr

/-- The notebook stored in mdit_parser.options, as read back by the
renderer through config["notebook"]["cells"]. -/
structure Notebook where
  cells : List NotebookCell := []
  deriving DecidableEq, Repr

/-- Reading config["notebook"]["cells"][cell_index].get("outputs", []); an
out-of-range index (a Python IndexError, unreachable since the tokens are
generated from the same notebook) is modelled as the empty default. -/
def cellOutputs (notebook : Notebook) (cell_index : Nat) : List Output :=
  ((notebook.cells.get? cell_index).map (fun c => c.outputs)).getD []

/-- Modelled from the spec: coalesce_streams lives in myst_nb/new/render.py,
which is not among the provided source files.  Spec section 4.1: consecutive
stream outputs sharing the same name are merged by string concatenation of
their text, preserving the first element of each run; non-stream outputs and
boundaries between differing stream names are never merged. -/
def coalesce_streams : List Output → List Output
  | [] => []
  | o :: rest =>
    match coalesce_streams rest with
    | [] => [o]
    | o2 :: rest2 =>
      if o.output_type = "stream" ∧ o2.output_type = "stream" ∧ o.name = o2.name then
        { o with text := o.text ++ o2.text } :: rest2
      else
        o :: o2 :: rest2

/-- The meta carried by a code-cell token (built by notebook_to_tokens):
the cell index, the tags list from the cell metadata, the execution count,
and the token content (the cell source). -/
structure CodeCellToken where
  index : Nat
  tags : List String := []
  execution_count : Option Int := none
  content : String := ""
  deriving DecidableEq, Repr

/-- DocutilsNbRenderer.render_nb_cell_code_outputs: read the cell's outputs
from the notebook, optionally coalesce streams, read the mime priority, and
run the output loop. -/
def render_nb_cell_code_outputs {Node : Type} (r : NbElementRenderer Node)
    (nb_config : List (String × ConfigValue)) (notebook : Notebook)
    (token : CodeCellToken) (line : Nat) : List (Emitted Node) :=
  let outputs := cellOutputs notebook token.index
  let outputs :=
    if truthyOpt (get_nb_config nb_config "merge_streams" (some token.index)) then
      coalesce_streams outputs
    else outputs
  let mime_priority :=
    strListOpt (get_nb_config nb_config "mime_priority" (some token.index))
  render_outputs r mime_priority token.index line outputs

/-- A child of the cell container built by render_nb_cell_code: the source
container (cell_input, holding the highlighted code block) or the output
container (cell_output, holding the items the output loop appended). -/
inductive CellNode (Node : Type) where
  | sourceContainer (source : String) (number_lines : Bool)
  | outputContainer (children : List (Emitted Node))
  deriving DecidableEq, Repr

/-- Whether a cell-container child is the source container. -/
def CellNode.isSourceContainer {Node : Type} : CellNode Node → Bool
  | .sourceContainer _ _ => true
  | .outputContainer _ => false

/-- Whether a cell-container child is the output container. -/
def CellNode.isOutputContainer {Node : Type} : CellNode Node → Bool
  | .sourceContainer _ _ => false
  | .outputContainer _ => true

/-- DocutilsNbRenderer.render_nb_cell_code: the children appended to the
cell container.  The source container is emitted unless the
remove_code_source option or a remove_input / remove-input tag suppresses
it; the output container is emitted only when the cell's outputs are
non-empty and neither the remove_code_outputs option nor a remove_output /
remove-output tag suppresses it.  The source container, when present,
precedes the output container. -/
def render_nb_cell_code {Node : Type} (r : NbElementRenderer Node)
    (nb_config : List (String × ConfigValue)) (notebook : Notebook)
    (token : CodeCellToken) (line : Nat) : List (CellNode Node) :=
  let tags := token.tags
  let source_part : List (CellNode Node) :=
    if !(truthyOpt (get_nb_config nb_config "remove_code_source" (some token.index)))
        && !(tags.contains "remove_input") && !(tags.contains "remove-input") then
      [CellNode.sourceContainer token.content
        (truthyOpt (get_nb_config nb_config "number_source_lines" (some token.index)))]
    else []
  let has_outputs := cellOutputs notebook token.index
  let output_part : List (CellNode Node) :=
    if !has_outputs.isEmpty
        && !(truthyOpt (get_nb_config nb_config "remove_code_outputs" (some token.index)))
        && !(tags.contains "remove_output") && !(tags.contains "remove-output") then
      [CellNode.outputContainer (render_nb_cell_code_outputs r nb_config notebook token line)]
    else []
  source_part ++ output_part

/-- The markdown parsing configuration from myst_parser (an external
collaborator); Parser.parse only constructs it or falls back to the default
MdParserConfig(), so it is modelled opaquely. -/
structure MdParserConfig where
  settings : List (String × String) := []
  deriving DecidableEq, Repr

/-- The execution data attached to the document when update_notebook reports
that execution happened; Parser.parse only tests it for truthiness, so it is
modelled opaquely. -/
structure NbExecData where
  keys : List String := []
  deriving DecidableEq, Repr

/-- An observable side effect of Parser.parse, in the order performed:
directive registration, a logged error diagnostic, setting a document
attribute, rendering the token stream into the document, and writing a file
through the element renderer's write_file capability. -/
inductive ParseEffect where
  | registerDirective (directive_name : String)
  | logError (message : String)
  | setDocAttr (key : String)
  | renderDocument
  | writeFile (path : List String) (content : ByteArray) (overwrite : Bool)

/-- The external collaborators Parser.parse calls, modelled as functions:
the two create_myst_config invocations (which either return a configuration
or raise TypeError/ValueError, modelled as Except with the error's first
argument), the two notebook readers, update_notebook, and nbformat.writes. -/
structure ParseEnv where
  md_config_result : Except String MdParserConfig
  nb_config_result : Except String NbParserConfig
  standard_nb_read : String → Notebook
  read_myst_markdown_notebook : MdParserConfig → String → Notebook
  update_notebook : Notebook → String → NbParserConfig → Notebook × Option NbExecData
  nbformat_writes : Notebook → String

/-- What Parser.parse leaves behind: the ordered effect trace, the
configurations actually used after error recovery, and the notebook value
after reading and reconciliation. -/
structure ParseResult where
  effects : List ParseEffect
  md_config : MdParserConfig
  nb_config : NbParserConfig
  notebook : Notebook

/-- Parser.parse: register the code-cell and raw-cell directives, build the
markdown and notebook configurations (falling back to the defaults and
logging an error when construction raises TypeError/ValueError), read the
notebook with the reader selected by read_as_md, reconcile it through
update_notebook (recording nb_exec_data on the document when present),
render the token stream, and finally write the updated notebook, serialized
by nbformat.writes and encoded as UTF-8, to the fixed relative path
rendered.ipynb with overwrite enabled. -/
def Parser.parse (env : ParseEnv) (inputstring : String) (document_source : String) :
    ParseResult :=
  let register_effects : List ParseEffect :=
    [ParseEffect.registerDirective "code-cell", ParseEffect.registerDirective "raw-cell"]
  let md_step : MdParserConfig × List ParseEffect :=
    match env.md_config_result with
    | .ok c => (c, [])
    | .error msg => ({}, [ParseEffect.logError ("myst configuration invalid: " ++ msg)])
  let md_config := md_step.1
  let nb_step : NbParserConfig × List ParseEffect :=
    match env.nb_config_result with
    | .ok c => (c, [])
    | .error msg => ({}, [ParseEffect.logError ("myst-nb configuration invalid: " ++ msg)])
  let nb_config := nb_step.1
  let notebook :=
    if nb_config.read_as_md then
      env.read_myst_markdown_notebook md_config inputstring
    else
      env.standard_nb_read inputstring
  let updated := env.update_notebook notebook document_source nb_config
  let notebook := updated.1
  let exec_effects : List ParseEffect :=
    if updated.2.isSome then [ParseEffect.setDocAttr "nb_exec_data"] else []
  let write_effect : ParseEffect :=
    ParseEffect.writeFile ["rendered.ipynb"] (env.nbformat_writes notebook).toUTF8 true
  { effects := register_effects ++ md_step.2 ++ nb_step.2 ++ exec_effects ++
      [ParseEffect.renderDocument, write_effect]
    md_config := md_config
    nb_config := nb_config
    notebook := notebook }

/-- A concrete element renderer over string nodes, used to evaluate the
dispatcher on concrete inputs: each capability returns one node recording
which capability produced it. -/
def strRenderer : NbElementRenderer String where
  render_stdout := fun o _ _ => ["stdout:" ++ o.text]
  render_stderr := fun o _ _ => ["stderr:" ++ o.text]
  render_error := fun o _ _ => ["error:" ++ o.name]
  render_mime_type := fun mt payload _ _ => ["mime:" ++ mt ++ ":" ++ payload]

/-- A concrete notebook with one code cell holding one stdout output, used
to instantiate theorems on concrete inputs. -/
def sampleNotebook : Notebook :=
  { cells := [{ outputs := [{ output_type := "stream", name := "stdout", text := "hi" }] }] }

/-- A concrete notebook whose single cell has no outputs. -/
def emptyOutputsNotebook : Notebook :=
  { cells := [{ outputs := [] }] }

/-- A concrete parse environment whose two configuration constructions both
raise, used to instantiate the recovery theorem on a concrete input. -/
def failingConfigEnv : ParseEnv where
  md_config_result := Except.error "bad md option"
  nb_config_result := Except.error "bad nb option"
  standard_nb_read := fun _ => sampleNotebook
  read_myst_markdown_notebook := fun _ _ => sampleNotebook
  update_notebook := fun nb _ _ => (nb, some {})
  nbformat_writes := fun _ => "serialized notebook"

end MystNb

namespace MystNb

/-- The output loop distributes over concatenation of the output list. -/
theorem render_outputs_append {Node : Type} (r : NbElementRenderer Node)
    (mime_priority : List String) (cell_index line : Nat) (xs ys : List Output) :
    render_outputs r mime_priority cell_index line (xs ++ ys) =
      render_outputs r mime_priority cell_index line xs ++
        render_outputs r mime_priority cell_index line ys := by
  induction xs with
  | nil => rfl
  | cons o rest ih => simp [render_outputs, ih]

/-- In a concatenation whose left part contains no pb-element and whose
right part contains no pa-element, every pa-element precedes every
pb-element. -/
theorem index_lt_of_separated {α : Type} (pa pb : α → Bool) (xs ys : List α)
    (hxs : ∀ x ∈ xs, pb x = false) (hys : ∀ y ∈ ys, pa y = false)
    (i j : Nat) (hi : i < (xs ++ ys).length) (hj : j < (xs ++ ys).length)
    (hpa : pa ((xs ++ ys).get ⟨i, hi⟩) = true)
    (hpb : pb ((xs ++ ys).get ⟨j, hj⟩) = true) : i < j := by
  have hilt : i < xs.length := by
    by_contra hge
    have hge2 : xs.length ≤ i := Nat.le_of_not_lt hge
    have : (xs ++ ys).get ⟨i, hi⟩ ∈ ys := by
      rw [List.get_eq_getElem, List.getElem_append_right hge2]
      exact List.getElem_mem _
    have h2 := hys _ this
    rw [hpa] at h2
    exact absurd h2 (by simp)
  have hjge : xs.length ≤ j := by
    by_contra hlt
    have hlt2 : j < xs.length := Nat.lt_of_not_le hlt
    have : (xs ++ ys).get ⟨j, hj⟩ ∈ xs := by
      rw [List.get_eq_getElem, List.getElem_append_left hlt2]
      exact List.getElem_mem _
    have h2 := hxs _ this
    rw [hpb] at h2
    exact absurd h2 (by simp)
  exact Nat.lt_of_lt_of_le hilt hjge

/-- Claim C1: for every ordered mime priority list P and every data mapping
D, the mime resolver selects the first element of P, in priority order, whose
key is present in D, regardless of the iteration order of D (the result
depends only on which keys are present); in particular with priority
text/html, image/png, text/plain and available keys text/plain and
image/png, it selects image/png. -/
theorem findMimeType_picks_first_priority_match :
    (∀ (P : List String) (D D2 : List (String × String)),
        (∀ k, keyMem D k = keyMem D2 k) →
        findMimeType P D = findMimeType P D2) ∧
    (∀ (P1 P2 : List String) (x : String) (D : List (String × String)),
        (∀ y ∈ P1, keyMem D y = false) → keyMem D x = true →
        findMimeType (P1 ++ x :: P2) D = some x) ∧
    findMimeType ["text/html", "image/png", "text/plain"]
      [("text/plain", "<text>"), ("image/png", "<png>")] = some "image/png" := by
  refine ⟨?_, ?_, by decide⟩
  · intro P D D2 h
    unfold findMimeType
    rw [funext h]
  · intro P1 P2 x D
    induction P1 with
    | nil =>
      intro _ hx
      simp only [List.nil_append, findMimeType]
      exact List.find?_cons_of_pos _ hx
    | cons y ys ih =>
      intro h hx
      have hy : keyMem D y = false := h y (List.mem_cons_self y ys)
      have h2 : ∀ z ∈ ys, keyMem D z = false :=
        fun z hz => h z (List.mem_cons_of_mem y hz)
      have base := ih h2 hx
      unfold findMimeType at base ⊢
      rw [List.cons_append, List.find?_cons_of_neg _ (by simp [hy])]
      exact base

/-- Claim C1 witness: the general parts instantiated at the concrete
priority list text/html, image/png, text/plain and a data mapping given in
two iteration orders. -/
theorem findMimeType_picks_first_priority_match_witness :
    findMimeType ["text/html", "image/png", "text/plain"]
        [("text/plain", "<text>"), ("image/png", "<png>")] =
      findMimeType ["text/html", "image/png", "text/plain"]
        [("image/png", "<png>"), ("text/plain", "<text>")] ∧
    findMimeType (["text/html"] ++ "image/png" :: ["text/plain"])
        [("text/plain", "<text>"), ("image/png", "<png>")] = some "image/png" :=
  ⟨findMimeType_picks_first_priority_match.1
      ["text/html", "image/png", "text/plain"]
      [("text/plain", "<text>"), ("image/png", "<png>")]
      [("image/png", "<png>"), ("text/plain", "<text>")]
      (by intro k; simp [keyMem, List.any_cons, List.any_nil, Bool.or_comm]),
   findMimeType_picks_first_priority_match.2.1
      ["text/html"] ["text/plain"] "image/png"
      [("text/plain", "<text>"), ("image/png", "<png>")]
      (by decide) (by decide)⟩

/-- Claim C2: for a display_data or execute_result output none of whose data
keys occurs in the priority list, the dispatcher appends exactly one warning
(the mime_type subtype) and no rendered node for that output, and the loop
renders all other outputs around it unaffected. -/
theorem no_mime_match_warns_once_and_continues {Node : Type}
    (r : NbElementRenderer Node) (P : List String) (cell_index line : Nat)
    (ot nm tx : String) (data : List (String × String)) (before rest : List Output)
    (hot : ot = "display_data" ∨ ot = "execute_result")
    (hP : ∀ m ∈ P, keyMem data m = false) :
    render_output r P cell_index line ⟨ot, nm, tx, data⟩ =
      [Emitted.warning "No output mime type found from render_priority" "mime_type"] ∧
    render_outputs r P cell_index line (before ++ ⟨ot, nm, tx, data⟩ :: rest) =
      render_outputs r P cell_index line before ++
        Emitted.warning "No output mime type found from render_priority" "mime_type" ::
          render_outputs r P cell_index line rest := by
  have hfind : findMimeType P data = none := by
    rw [findMimeType, List.find?_eq_none]
    intro x hx
    simp [hP x hx]
  have hone : render_output r P cell_index line ⟨ot, nm, tx, data⟩ =
      [Emitted.warning "No output mime type found from render_priority" "mime_type"] := by
    rcases hot with h | h <;> subst h <;> simp [render_output, hfind]
  refine ⟨hone, ?_⟩
  rw [render_outputs_append]
  simp [render_outputs, hone]

/-- Claim C2 witness: the failure case instantiated with priority image/png
and a data mapping holding only text/plain, between two stream outputs. -/
theorem no_mime_match_warns_once_and_continues_witness :
    render_output strRenderer ["image/png"] 0 3
      ⟨"display_data", "", "", [("text/plain", "plain")]⟩ =
      [Emitted.warning "No output mime type found from render_priority" "mime_type"] ∧
    render_outputs strRenderer ["image/png"] 0 3
      ([⟨"stream", "stdout", "a", []⟩] ++
        ⟨"display_data", "", "", [("text/plain", "plain")]⟩ ::
          [⟨"stream", "stderr", "b", []⟩]) =
      render_outputs strRenderer ["image/png"] 0 3 [⟨"stream", "stdout", "a", []⟩] ++
        Emitted.warning "No output mime type found from render_priority" "mime_type" ::
          render_outputs strRenderer ["image/png"] 0 3 [⟨"stream", "stderr", "b", []⟩] :=
  no_mime_match_warns_once_and_continues strRenderer ["image/png"] 0 3
    "display_data" "" "" [("text/plain", "plain")]
    [⟨"stream", "stdout", "a", []⟩] [⟨"stream", "stderr", "b", []⟩]
    (Or.inl rfl) (by decide)

/-- Claim C3: the claim holds for the stdout and stderr branches (the
respective capabilities are called), but fails for any other stream name:
the dispatcher silently skips such an output, producing no node and,
contrary to the claim, no diagnostic either (the source reads a bare pass
marked with a TODO-warning comment).  Evaluating the code on a stream output
named stdin yields the empty emission list, containing no warning. -/
theorem stream_unknown_name_is_silently_skipped :
    render_output strRenderer ["text/plain"] 2 5
      ⟨"stream", "stdin", "typed", []⟩ = ([] : List (Emitted String)) ∧
    render_output strRenderer ["text/plain"] 2 5
      ⟨"stream", "stdout", "a", []⟩ = [Emitted.rendered "stdout:a"] ∧
    render_output strRenderer ["text/plain"] 2 5
      ⟨"stream", "stderr", "b", []⟩ = [Emitted.rendered "stderr:b"] := by
  refine ⟨rfl, rfl, rfl⟩

/-- Claim C4: for every output whose kind is none of stream, error,
display_data or execute_result, the dispatcher appends exactly one warning
(the output_type subtype) and no node for that output, and the loop renders
all other outputs around it unaffected. -/
theorem unsupported_output_type_warns_and_continues {Node : Type}
    (r : NbElementRenderer Node) (P : List String) (cell_index line : Nat)
    (ot nm tx : String) (data : List (String × String)) (before rest : List Output)
    (h1 : ot ≠ "stream") (h2 : ot ≠ "error")
    (h3 : ot ≠ "display_data") (h4 : ot ≠ "execute_result") :
    render_output r P cell_index line ⟨ot, nm, tx, data⟩ =
      [Emitted.warning ("Unsupported output type: " ++ ot) "output_type"] ∧
    render_outputs r P cell_index line (before ++ ⟨ot, nm, tx, data⟩ :: rest) =
      render_outputs r P cell_index line before ++
        Emitted.warning ("Unsupported output type: " ++ ot) "output_type" ::
          render_outputs r P cell_index line rest := by
  have hone : render_output r P cell_index line ⟨ot, nm, tx, data⟩ =
      [Emitted.warning ("Unsupported output type: " ++ ot) "output_type"] := by
    simp [render_output, h1, h2, h3, h4]
  refine ⟨hone, ?_⟩
  rw [render_outputs_append]
  simp [render_outputs, hone]

/-- Claim C4 witness: the unsupported-kind case instantiated with an output
of kind update_display_data between two stream outputs. -/
theorem unsupported_output_type_warns_and_continues_witness :
    render_output strRenderer ["text/plain"] 1 4
      ⟨"update_display_data", "", "", []⟩ =
      [Emitted.warning "Unsupported output type: update_display_data" "output_type"] ∧
    render_outputs strRenderer ["text/plain"] 1 4
      ([⟨"stream", "stdout", "a", []⟩] ++
        ⟨"update_display_data", "", "", []⟩ :: [⟨"stream", "stderr", "b", []⟩]) =
      render_outputs strRenderer ["text/plain"] 1 4 [⟨"stream", "stdout", "a", []⟩] ++
        Emitted.warning "Unsupported output type: update_display_data" "output_type" ::
          render_outputs strRenderer ["text/plain"] 1 4 [⟨"stream", "stderr", "b", []⟩] :=
  unsupported_output_type_warns_and_continues strRenderer ["text/plain"] 1 4
    "update_display_data" "" "" []
    [⟨"stream", "stdout", "a", []⟩] [⟨"stream", "stderr", "b", []⟩]
    (by decide) (by decide) (by decide) (by decide)

/-- The cell-container children are the (possibly suppressed) source
container followed by the (possibly suppressed) output container. -/
theorem render_nb_cell_code_eq_append {Node : Type} (r : NbElementRenderer Node)
    (nb_config : List (String × ConfigValue)) (notebook : Notebook)
    (token : CodeCellToken) (line : Nat) :
    render_nb_cell_code r nb_config notebook token line =
      (if !(truthyOpt (get_nb_config nb_config "remove_code_source" (some token.index)))
          && !(token.tags.contains "remove_input")
          && !(token.tags.contains "remove-input") then
        [CellNode.sourceContainer token.content
          (truthyOpt (get_nb_config nb_config "number_source_lines" (some token.index)))]
      else []) ++
      (if !(cellOutputs notebook token.index).isEmpty
          && !(truthyOpt (get_nb_config nb_config "remove_code_outputs" (some token.index)))
          && !(token.tags.contains "remove_output")
          && !(token.tags.contains "remove-output") then
        [CellNode.outputContainer (render_nb_cell_code_outputs r nb_config notebook token line)]
      else []) := rfl

/-- Claim C5: a remove_input / remove-input tag suppresses the source
container regardless of the remove_code_source configuration value, and a
remove_output / remove-output tag suppresses the output container regardless
of configuration and outputs: the tag override wins over the global
default. -/
theorem remove_tags_override_global_config {Node : Type}
    (r : NbElementRenderer Node) (nb_config : List (String × ConfigValue))
    (notebook : Notebook) (token : CodeCellToken) (line : Nat) :
    (("remove_input" ∈ token.tags ∨ "remove-input" ∈ token.tags) →
      ∀ n ∈ render_nb_cell_code r nb_config notebook token line,
        n.isSourceContainer = false) ∧
    (("remove_output" ∈ token.tags ∨ "remove-output" ∈ token.tags) →
      ∀ n ∈ render_nb_cell_code r nb_config notebook token line,
        n.isOutputContainer = false) := by
  constructor
  · intro h n hn
    have hc : token.tags.contains "remove_input" = true ∨
        token.tags.contains "remove-input" = true := by
      rcases h with h | h
      · exact Or.inl (by simpa using h)
      · exact Or.inr (by simpa using h)
    rw [render_nb_cell_code_eq_append] at hn
    rcases List.mem_append.mp hn with hs | ho
    · exfalso
      split at hs
      next hcond => rcases hc with hc | hc <;> simp at hc hcond <;> tauto
      next => simp at hs
    · split at ho
      next =>
        simp only [List.mem_singleton] at ho
        subst ho
        rfl
      next => simp at ho
  · intro h n hn
    have hc : token.tags.contains "remove_output" = true ∨
        token.tags.contains "remove-output" = true := by
      rcases h with h | h
      · exact Or.inl (by simpa using h)
      · exact Or.inr (by simpa using h)
    rw [render_nb_cell_code_eq_append] at hn
    rcases List.mem_append.mp hn with hs | ho
    · split at hs
      next =>
        simp only [List.mem_singleton] at hs
        subst hs
        rfl
      next => simp at hs
    · exfalso
      split at ho
      next hcond => rcases hc with hc | hc <;> simp at hc hcond <;> tauto
      next => simp at ho

/-- Claim C5 witness: a cell tagged remove_input (with the default
configuration, which shows source) emits no source container, and one tagged
remove-output (with non-empty outputs) emits no output container. -/
theorem remove_tags_override_global_config_witness :
    (CellNode.outputContainer (render_nb_cell_code_outputs strRenderer
        (NbParserConfig.as_dict {}) sampleNotebook
        ⟨0, ["remove_input"], none, "x = 1"⟩ 3)).isSourceContainer = false ∧
    (CellNode.sourceContainer "x = 1" false : CellNode String).isOutputContainer = false :=
  ⟨(remove_tags_override_global_config strRenderer (NbParserConfig.as_dict {})
      sampleNotebook ⟨0, ["remove_input"], none, "x = 1"⟩ 3).1
      (Or.inl (by simp))
      (CellNode.outputContainer (render_nb_cell_code_outputs strRenderer
        (NbParserConfig.as_dict {}) sampleNotebook
        ⟨0, ["remove_input"], none, "x = 1"⟩ 3))
      (by decide),
   (remove_tags_override_global_config strRenderer (NbParserConfig.as_dict {})
      sampleNotebook ⟨0, ["remove-output"], none, "x = 1"⟩ 3).2
      (Or.inr (by simp))
      (CellNode.sourceContainer "x = 1" false)
      (by decide)⟩

/-- Claim C6: a code cell whose output sequence is empty emits no output
container at all, whatever the configuration and tags say. -/
theorem empty_outputs_emit_no_output_container {Node : Type}
    (r : NbElementRenderer Node) (nb_config : List (String × ConfigValue))
    (notebook : Notebook) (token : CodeCellToken) (line : Nat)
    (h : cellOutputs notebook token.index = []) :
    ∀ n ∈ render_nb_cell_code r nb_config notebook token line,
      n.isOutputContainer = false := by
  intro n hn
  rw [render_nb_cell_code_eq_append] at hn
  rcases List.mem_append.mp hn with hs | ho
  · split at hs
    next =>
      simp only [List.mem_singleton] at hs
      subst hs
      rfl
    next => simp at hs
  · exfalso
    split at ho
    next hcond =>
      rw [h] at hcond
      simp at hcond
    next => simp at ho

/-- Claim C6 witness: the theorem applied to a one-cell notebook with no
outputs, under the default configuration that would otherwise show them. -/
theorem empty_outputs_emit_no_output_container_witness :
    (CellNode.sourceContainer "print(1)" false : CellNode String).isOutputContainer = false :=
  empty_outputs_emit_no_output_container strRenderer (NbParserConfig.as_dict {})
    emptyOutputsNotebook ⟨0, [], none, "print(1)"⟩ 7 rfl
    (CellNode.sourceContainer "print(1)" false) (by decide)

/-- Claim C7: within a cell the emitted nodes preserve order: every source
container precedes every output container among the cell-container children,
and the output loop emits each output's nodes as one block, blocks
concatenated in exactly the order of the output sequence. -/
theorem cell_node_order_preserved {Node : Type} (r : NbElementRenderer Node)
    (nb_config : List (String × ConfigValue)) (notebook : Notebook)
    (token : CodeCellToken) (line : Nat) (P : List String)
    (cell_index line2 : Nat) (outs : List Output) :
    (∀ (i j : Nat)
        (hi : i < (render_nb_cell_code r nb_config notebook token line).length)
        (hj : j < (render_nb_cell_code r nb_config notebook token line).length),
        ((render_nb_cell_code r nb_config notebook token line).get
          ⟨i, hi⟩).isSourceContainer = true →
        ((render_nb_cell_code r nb_config notebook token line).get
          ⟨j, hj⟩).isOutputContainer = true →
        i < j) ∧
    render_outputs r P cell_index line2 outs =
      (outs.map (render_output r P cell_index line2)).flatten := by
  constructor
  · intro i j hi hj hpa hpb
    refine index_lt_of_separated CellNode.isSourceContainer CellNode.isOutputContainer
      _ _ ?_ ?_ i j hi hj hpa hpb
    · intro x hx
      split at hx
      next =>
        simp only [List.mem_singleton] at hx
        subst hx
        rfl
      next => simp at hx
    · intro y hy
      split at hy
      next =>
        simp only [List.mem_singleton] at hy
        subst hy
        rfl
      next => simp at hy
  · induction outs with
    | nil => rfl
    | cons o rest ih => simp [render_outputs, ih]

/-- Claim C7 witness: source at position 0 precedes output at position 1 for
a concrete cell showing both, and the loop equals the concatenation of
per-output blocks on a concrete two-output sequence. -/
theorem cell_node_order_preserved_witness :
    (0 : Nat) < 1 ∧
    render_outputs strRenderer ["text/plain"] 0 9
        [⟨"stream", "stdout", "a", []⟩, ⟨"error", "NameError", "", []⟩] =
      ([⟨"stream", "stdout", "a", []⟩, ⟨"error", "NameError", "", []⟩].map
        (render_output strRenderer ["text/plain"] 0 9)).flatten := by
  constructor
  · exact (cell_node_order_preserved strRenderer (NbParserConfig.as_dict {})
      sampleNotebook ⟨0, [], none, "x = 1"⟩ 9 ["text/plain"] 0 9
      [⟨"stream", "stdout", "a", []⟩, ⟨"error", "NameError", "", []⟩]).1
      0 1 (by decide) (by decide) (by decide) (by decide)
  · exact (cell_node_order_preserved strRenderer (NbParserConfig.as_dict {})
      sampleNotebook ⟨0, [], none, "x = 1"⟩ 9 ["text/plain"] 0 9
      [⟨"stream", "stdout", "a", []⟩, ⟨"error", "NameError", "", []⟩]).2

/-- Claim C8: when either configuration construction raises a type or value
error, Parser.parse substitutes the documented default configuration, logs
one diagnostic naming the invalid configuration, and the run continues (the
document is still rendered, and the notebook value is the one the run with
the default configuration produces): configuration errors are never fatal. -/
theorem config_errors_recovered_not_fatal (env : ParseEnv) (input src e : String) :
    (env.md_config_result = Except.error e →
      (Parser.parse env input src).md_config = {} ∧
      ParseEffect.logError ("myst configuration invalid: " ++ e) ∈
        (Parser.parse env input src).effects ∧
      ParseEffect.renderDocument ∈ (Parser.parse env input src).effects ∧
      (Parser.parse env input src).notebook =
        (Parser.parse { env with md_config_result := Except.ok {} } input src).notebook) ∧
    (env.nb_config_result = Except.error e →
      (Parser.parse env input src).nb_config = {} ∧
      ParseEffect.logError ("myst-nb configuration invalid: " ++ e) ∈
        (Parser.parse env input src).effects ∧
      ParseEffect.renderDocument ∈ (Parser.parse env input src).effects ∧
      (Parser.parse env input src).notebook =
        (Parser.parse { env with nb_config_result := Except.ok {} } input src).notebook) := by
  constructor
  · intro h
    refine ⟨?_, ?_, ?_, ?_⟩ <;> simp [Parser.parse, h]
  · intro h
    refine ⟨?_, ?_, ?_, ?_⟩ <;> simp [Parser.parse, h]

/-- Claim C8 witness: a concrete environment in which both configuration
constructions raise; both recoveries are exercised. -/
theorem config_errors_recovered_not_fatal_witness :
    ((Parser.parse failingConfigEnv "nb text" "doc.md").md_config = {} ∧
      ParseEffect.logError ("myst configuration invalid: " ++ "bad md option") ∈
        (Parser.parse failingConfigEnv "nb text" "doc.md").effects ∧
      ParseEffect.renderDocument ∈ (Parser.parse failingConfigEnv "nb text" "doc.md").effects ∧
      (Parser.parse failingConfigEnv "nb text" "doc.md").notebook =
        (Parser.parse { failingConfigEnv with md_config_result := Except.ok {} }
          "nb text" "doc.md").notebook) ∧
    ((Parser.parse failingConfigEnv "nb text" "doc.md").nb_config = {} ∧
      ParseEffect.logError ("myst-nb configuration invalid: " ++ "bad nb option") ∈
        (Parser.parse failingConfigEnv "nb text" "doc.md").effects ∧
      ParseEffect.renderDocument ∈ (Parser.parse failingConfigEnv "nb text" "doc.md").effects ∧
      (Parser.parse failingConfigEnv "nb text" "doc.md").notebook =
        (Parser.parse { failingConfigEnv with nb_config_result := Except.ok {} }
          "nb text" "doc.md").notebook) :=
  ⟨(config_errors_recovered_not_fatal failingConfigEnv "nb text" "doc.md" "bad md option").1 rfl,
   (config_errors_recovered_not_fatal failingConfigEnv "nb text" "doc.md" "bad nb option").2 rfl⟩

/-- The last element of an effect trace of the shape Parser.parse builds. -/
theorem getLast?_cons_cons_append {α : Type} (a b : α) (l1 l2 l3 : List α) (r w : α) :
    (a :: b :: (l1 ++ l2 ++ l3 ++ [r, w])).getLast? = some w := by
  have he : a :: b :: (l1 ++ l2 ++ l3 ++ [r, w]) =
      (a :: b :: (l1 ++ l2 ++ l3 ++ [r])) ++ [w] := by simp
  rw [he, List.getLast?_concat]

/-- Claim C9: every parse run ends by writing the serialized (possibly
updated) notebook through the write_file capability, at the fixed relative
path rendered.ipynb, UTF-8 encoded from the nbformat serialization, with
overwrite enabled. -/
theorem parse_always_writes_rendered_notebook (env : ParseEnv) (input src : String) :
    (Parser.parse env input src).effects.getLast? =
      some (ParseEffect.writeFile ["rendered.ipynb"]
        ((env.nbformat_writes (Parser.parse env input src).notebook).toUTF8) true) := by
  simp only [Parser.parse, List.cons_append, List.nil_append]
  exact getLast?_cons_cons_append _ _ _ _ _ _ _

/-- Claim C10: get_nb_config ignores the cell index entirely: the lookup of
any key returns the same value for any two cell indices, so the options it
serves are resolved document-globally. -/
theorem get_nb_config_ignores_cell_index (nb_config : List (String × ConfigValue))
    (key : String) (i j : Option Nat) :
    get_nb_config nb_config key i = get_nb_config nb_config key j := rfl

end MystNb
